import Mathlib

/- Shallow embedding of parts of the AREG SDK (areg-sdk) C++ sources and
   proofs about them: the configuration property readers
   (areg/persist/private/Property.cpp, areg/trace/private/TraceProperty.cpp),
   the sorted linked list container (areg/base/TESortedLinkedList.hpp),
   the registry lists (areg/component/NERegistry.hpp) and the service
   manager dispatcher (areg/component/private/ServiceManager.cpp).

   Strings are modelled as lists of characters.  Classes that the sources
   reference but whose implementation is not part of the studied tree
   (String helpers, PropertyKey / PropertyValue, the server directory,
   address classes) are modelled from the specification; each such
   definition carries a doc comment saying so. -/

set_option autoImplicit false

namespace Areg

/- ===================== Character-list machinery ======================= -/

/-- Character strings are modelled as lists of characters. -/
abbrev Chars := List Char

/-- Blank character test; the specification says whitespace around
configuration tokens is stripped, modelled here for the blank character. -/
def isBlankChar (c : Char) : Bool := c == ' '

/-- Modelled from the spec: stripping of the whitespace surrounding a token
(drop blanks from the front, then from the back). -/
def trimChars (s : Chars) : Chars :=
  ((s.dropWhile isBlankChar).reverse.dropWhile isBlankChar).reverse

/-- Modelled from the spec: the String findFirst helper used by the parsers.
It returns the position of the first occurrence of the character, if any;
an absent result plays the role of NEString invalid positions. -/
def findFirstPos (c : Char) : Chars → Option Nat
  | [] => none
  | x :: xs => if x == c then some 0 else (findFirstPos c xs).map (· + 1)

/-- Modelled from the spec: the String getSubstring helper used by
Property parseProperty.  It splits a string at the first occurrence of the
separator character: the first component is everything before the
separator, the second is everything after it (absent when the separator
does not occur, playing the role of the null out-pointer). -/
def splitAtFirst (c : Char) (s : Chars) : Chars × Option Chars :=
  match findFirstPos c s with
  | some p => (s.take p, some (s.drop (p + 1)))
  | none => (s, none)

/- ===================== Property (areg/persist) ======================== -/

/-- Comment marker of the configuration syntax; the specification says a
number-sign character starts a comment that extends to end of line. -/
def syntaxCommentChar : Char := '#'

/-- Modelled from the spec: the NEPersistence SYNTAX_COMMENT marker text
prepended by addComment to comments that do not already carry it. -/
def syntaxComment : Chars := ['#', ' ']

/-- Key and value of a property are separated by the equality sign. -/
def syntaxEqualChar : Char := '='

/-- Line-end marker used between stacked comment lines. -/
def syntaxLineEnd : Chars := ['\n']

/-- Modelled from the spec: a structured property key
(areg/persist PropertyKey is not part of the studied tree).  Keys are
dotted property paths; the model keeps the parsed text whole. -/
structure PropertyKey where
  keyPath : Chars
deriving DecidableEq

/-- Modelled from the spec: parsing a key strips surrounding whitespace. -/
def PropertyKey.parseKey (s : Chars) : PropertyKey :=
  { keyPath := trimChars s }

/-- Modelled from the spec: a key is valid when it is not empty. -/
def PropertyKey.isValid (k : PropertyKey) : Bool :=
  !k.keyPath.isEmpty

/-- Modelled from the spec: serialization of a key gives back its path. -/
def PropertyKey.convToString (k : PropertyKey) : Chars := k.keyPath

/-- Modelled from the spec: resetting a key empties it. -/
def PropertyKey.resetKey : PropertyKey := { keyPath := [] }

/-- Modelled from the spec: a property value
(areg/persist PropertyValue is not part of the studied tree). -/
structure PropertyValue where
  valueText : Chars
deriving DecidableEq

/-- Modelled from the spec: parsing a value strips surrounding whitespace;
the null pointer case (no separator found) yields the empty value. -/
def PropertyValue.parseValue (s : Option Chars) : PropertyValue :=
  { valueText := trimChars (s.getD []) }

/-- Modelled from the spec: serialization of a value gives back its text. -/
def PropertyValue.convToString (v : PropertyValue) : Chars := v.valueText

/-- Modelled from the spec: resetting a value empties it. -/
def PropertyValue.resetValue : PropertyValue := { valueText := [] }

/-- Embedding of the Property object of areg/persist/private/Property.cpp:
a comment plus a key-value pair. -/
structure Property where
  mComment : Chars
  mKey : PropertyKey
  mValue : PropertyValue
deriving DecidableEq

/-- A Property with no comment and an empty key-value pair. -/
def Property.emptyProperty : Property :=
  { mComment := [], mKey := PropertyKey.resetKey, mValue := PropertyValue.resetValue }

/-- Embedding of Property isValid: the property is valid when its key is. -/
def Property.isValid (p : Property) : Bool := p.mKey.isValid

/-- Embedding of Property addComment (Property.cpp lines 131 to 146):
append a line end when a comment is already stored, prepend the comment
marker when the new text does not equal it, then append the new text. -/
def Property.addComment (p : Property) (comment : Chars) : Property :=
  let c1 := if p.mComment.isEmpty then p.mComment else p.mComment ++ syntaxLineEnd
  let c2 := if comment.isEmpty = false ∧ comment ≠ syntaxComment then c1 ++ syntaxComment else c1
  { p with mComment := c2 ++ comment }

/-- Embedding of Property parseProperty (Property.cpp lines 173 to 207).
A comment tail is split off and stored through addComment, the remainder
is split at the equality sign into key and value, and an invalid key
resets both members.  Returns the updated property and the isValid
result. -/
def Property.parseProperty (p : Property) (strProperties : Chars) : Property × Bool :=
  let result :=
    if strProperties.isEmpty = false then
      let pComment := findFirstPos syntaxCommentChar strProperties
      let p1 :=
        match pComment with
        | some pos => p.addComment (strProperties.drop pos)
        | none => p
      let values :=
        match pComment with
        | some pos => strProperties.take pos
        | none => strProperties
      let p2 :=
        if values.isEmpty = false then
          let kv := splitAtFirst syntaxEqualChar values
          { p1 with mKey := PropertyKey.parseKey kv.1
                  , mValue := PropertyValue.parseValue kv.2 }
        else p1
      if p2.mKey.isValid = false then
        { p2 with mKey := PropertyKey.resetKey, mValue := PropertyValue.resetValue }
      else p2
    else
      p.addComment []
  (result, result.isValid)

/-- Embedding of Property convToString (Property.cpp lines 209 to 243),
including the duplicated comment test of the dead else-if branch: the
result starts empty, key and value are joined with blanks around the
equality sign, and the comment branches are translated literally. -/
def Property.convToString (p : Property) : Chars :=
  let key := p.mKey.convToString
  let value := p.mValue.convToString
  let keyValue :=
    if key.isEmpty = false ∧ value.isEmpty = false then
      key ++ [' '] ++ [syntaxEqualChar] ++ [' '] ++ value
    else key
  if p.mComment.isEmpty = false then
    if (findFirstPos '\n' p.mComment).isSome ∨ 64 ≤ p.mComment.length then
      p.mComment ++ syntaxLineEnd ++ keyValue
    else []
  else if p.mComment.isEmpty = false then
    keyValue ++ [' '] ++ p.mComment
  else keyValue

/- ===================== TraceProperty (areg/trace) ===================== -/

/-- Embedding of the TraceProperty object of
areg/trace/private/TraceProperty.cpp: a key-value pair plus a comment. -/
structure TraceProperty where
  mKey : Chars
  mValue : Chars
  mComment : Chars
deriving DecidableEq

/-- A TraceProperty with all members cleared, as after clearProperty. -/
def TraceProperty.emptyProperty : TraceProperty :=
  { mKey := [], mValue := [], mComment := [] }

/-- Modelled from the spec: TraceProperty isValid (declared in the header,
which is not part of the studied tree) holds when the key is not empty. -/
def TraceProperty.isValid (tp : TraceProperty) : Bool := !tp.mKey.isEmpty

/-- Embedding of TraceProperty parseProperty (TraceProperty.cpp lines 119
to 144).  A trailing comment is stored with a line end appended and the
line truncated before it; the line is then split at the equality sign.
The stores into the key and value members go through the trace property
key and value setters, which are not part of the studied tree and are
modelled from the spec: whitespace around the tokens is stripped.
Returns the updated property together with the isValid result. -/
def TraceProperty.parseProperty (tp : TraceProperty) (line0 : Chars) : TraceProperty × Bool :=
  let posComment := findFirstPos syntaxCommentChar line0
  let tp1 :=
    match posComment with
    | some p => { tp with mComment := line0.drop p ++ syntaxLineEnd }
    | none => tp
  let line :=
    match posComment with
    | some p => line0.take p
    | none => line0
  let tp2 :=
    match findFirstPos syntaxEqualChar line with
    | some posEqual =>
      if (match posComment with | none => true | some p => posEqual < p) then
        { tp1 with
            mKey := trimChars (line.take posEqual)
          , mValue := trimChars (match posComment with
              | some p => (line.drop (posEqual + 1)).take (p - posEqual)
              | none => line.drop (posEqual + 1)) }
      else tp1
    | none => tp1
  (tp2, tp2.isValid)

/- ================ TESortedLinkedList (areg/base) ====================== -/

/-- Embedding of the NEMath eCompare result of the value comparator:
Smaller when the first value is less than the second, Bigger when
greater (documented at TESortedLinkedList.hpp lines 462 to 464). -/
inductive ECompare
  | Smaller
  | Equal
  | Bigger
deriving DecidableEq

/-- The comparator instantiated at integer values (the default TESortImpl
helper compares with the less-than order of the value type). -/
def compareInt (v1 v2 : Int) : ECompare :=
  if v1 < v2 then .Smaller else if v1 = v2 then .Equal else .Bigger

/-- Embedding of the NECommon eSort flag of the sorted linked list. -/
inductive ESort
  | SortDescending
  | SortAscending
deriving DecidableEq

/-- Embedding of TESortedLinkedList at integer values: the sorting flag
and the chain of blocks read from head to tail.  List positions (the
LISTPOS values of the source) are modelled as indices from the head; an
absent index models the null position. -/
structure TESortedLinkedList where
  mSorting : ESort
  elems : List Int
deriving DecidableEq

/-- An empty sorted linked list with the given sorting direction. -/
def TESortedLinkedList.emptyList (ascending : Bool) : TESortedLinkedList :=
  { mSorting := if ascending then .SortAscending else .SortDescending, elems := [] }

/-- Embedding of the private _insertElementBefore
(TESortedLinkedList.hpp lines 1091 to 1129).  The branches mirror the
source: empty list, single element (the new block becomes head), head
position (prepend), general inner position.  A null position with two or
more elements dereferences a null pointer in the source (and the single
element branch fails its assertion on a null position); the undefined
outcome is modelled as an absent result, and the assertion-violating
release behaviour of the single element branch as a prepend. -/
def TESortedLinkedList.insertElementBefore (l : TESortedLinkedList) (newValue : Int)
    (beforePosition : Option Nat) : Option TESortedLinkedList :=
  let cnt := l.elems.length
  if cnt = 0 then
    some { l with elems := [newValue] }
  else if cnt = 1 then
    some { l with elems := newValue :: l.elems }
  else
    match beforePosition with
    | some 0 => some { l with elems := newValue :: l.elems }
    | some i =>
      if i < cnt then
        some { l with elems := l.elems.take i ++ newValue :: l.elems.drop i }
      else none
    | none => none

/-- Embedding of the private _insertElementAfter
(TESortedLinkedList.hpp lines 1132 to 1170), mirrored the same way:
empty list, single element (the new block becomes tail), tail position
(append), general inner position; a null position with two or more
elements is undefined and modelled as an absent result. -/
def TESortedLinkedList.insertElementAfter (l : TESortedLinkedList) (newValue : Int)
    (afterPosition : Option Nat) : Option TESortedLinkedList :=
  let cnt := l.elems.length
  if cnt = 0 then
    some { l with elems := [newValue] }
  else if cnt = 1 then
    some { l with elems := l.elems ++ [newValue] }
  else
    match afterPosition with
    | some i =>
      if i = cnt - 1 then
        some { l with elems := l.elems ++ [newValue] }
      else if i < cnt then
        some { l with elems := l.elems.take (i + 1) ++ newValue :: l.elems.drop (i + 1) }
      else none
    | none => none

/-- Scan of the ascending branch of _add (lines 1185 to 1189): walk from
the head while the new element compares Smaller than the visited value;
the result is the index where the walk stopped, absent when it ran off
the end of the chain. -/
def findStopFromHead (newElement : Int) : List Int → Option Nat
  | [] => none
  | x :: xs =>
    if compareInt newElement x = .Smaller then (findStopFromHead newElement xs).map (· + 1)
    else some 0

/-- Helper for the descending branch: walk a reversed chain while the new
element compares Bigger, returning how many steps were taken before
stopping. -/
def revStop (newElement : Int) : List Int → Option Nat
  | [] => none
  | x :: xs =>
    if compareInt newElement x = .Bigger then (revStop newElement xs).map (· + 1)
    else some 0

/-- Scan of the descending branch of _add (lines 1194 to 1198): walk from
the tail towards the head while the new element compares Bigger; the
result is the head-based index where the walk stopped. -/
def findStopFromTail (newElement : Int) (l : List Int) : Option Nat :=
  (revStop newElement l.reverse).map (fun r => l.length - 1 - r)

/-- The before position computed by _add (lines 1183 to 1200): the stop
position of the head walk when sorting ascending, the head position when
sorting descending. -/
def TESortedLinkedList.beforePos (l : TESortedLinkedList) (newValue : Int) : Option Nat :=
  if l.mSorting = .SortAscending then findStopFromHead newValue l.elems
  else (if l.elems.isEmpty then none else some 0)

/-- The after position computed by _add (lines 1183 to 1200): the tail
position when sorting ascending, the stop position of the tail walk when
sorting descending. -/
def TESortedLinkedList.afterPos (l : TESortedLinkedList) (newValue : Int) : Option Nat :=
  if l.mSorting = .SortAscending then (if l.elems.isEmpty then none else some (l.elems.length - 1))
  else findStopFromTail newValue l.elems

/-- Embedding of _add (TESortedLinkedList.hpp lines 1172 to 1213): the
local result position is initialized to the null position, the before and
after positions are computed per sorting direction, and the test on the
result position chooses the insertion side.  The new block allocation is
assumed to succeed. -/
def TESortedLinkedList.addElem (l : TESortedLinkedList) (newValue : Int) : Option TESortedLinkedList :=
  let result : Option Nat := none
  let before := l.beforePos newValue
  let after := l.afterPos newValue
  if result ≠ none then l.insertElementAfter newValue after
  else l.insertElementBefore newValue before

/-- Public add (TESortedLinkedList.hpp lines 874 to 878) forwards a fresh
block holding the new element to _add. -/
def TESortedLinkedList.add (l : TESortedLinkedList) (newElement : Int) : Option TESortedLinkedList :=
  l.addElem newElement

/- ================ NERegistry lists (areg/component) =================== -/

/-- The NECommon invalid index sentinel returned by the registry lists
when nothing was inserted or found. -/
def INVALID_INDEX : Int := -1

/-- Embedding of the NERegistry TEListBase container: a plain sequence of
entries.  The entry type is kept abstract; the validity test and the
equality of the concrete entry classes are passed as functions. -/
structure TEListBase (Entry : Type) where
  mList : List Entry
deriving DecidableEq

/-- Embedding of TEListBase addEntry (NERegistry.hpp lines 2086 to 2119):
an invalid entry leaves the result at the invalid index; a unique add
overwrites the first equal entry in place, otherwise the index lands at
the list size; when the result equals the size the entry is appended. -/
def TEListBase.addEntry {Entry : Type} (isValidE : Entry → Bool) (eqE : Entry → Entry → Bool)
    (l : TEListBase Entry) (entry : Entry) (unique : Bool) : TEListBase Entry × Int :=
  if isValidE entry then
    if unique then
      match l.mList.findIdx? (fun elem => eqE elem entry) with
      | some i => ({ mList := l.mList.set i entry }, (i : Int))
      | none => ({ mList := l.mList ++ [entry] }, (l.mList.length : Int))
    else ({ mList := l.mList ++ [entry] }, (l.mList.length : Int))
  else (l, INVALID_INDEX)

/-- Embedding of TEListBase placeEntry (NERegistry.hpp lines 2121 to
2154); it mirrors addEntry with the entry moved instead of copied, which
the embedding renders identically. -/
def TEListBase.placeEntry {Entry : Type} (isValidE : Entry → Bool) (eqE : Entry → Entry → Bool)
    (l : TEListBase Entry) (entry : Entry) (unique : Bool) : TEListBase Entry × Int :=
  if isValidE entry then
    if unique then
      match l.mList.findIdx? (fun elem => eqE elem entry) with
      | some i => ({ mList := l.mList.set i entry }, (i : Int))
      | none => ({ mList := l.mList ++ [entry] }, (l.mList.length : Int))
    else ({ mList := l.mList ++ [entry] }, (l.mList.length : Int))
  else (l, INVALID_INDEX)

/-- Embedding of NERegistry DependencyEntry: the role name of a dependent
service (NERegistry.cpp lines 315 to 331). -/
structure DependencyEntry where
  mRoleName : String
deriving DecidableEq

/-- Embedding of DependencyEntry isValid (NERegistry.cpp line 323): the
role name must not be empty. -/
def DependencyEntry.entryIsValid (e : DependencyEntry) : Bool := !e.mRoleName.isEmpty

/-- Embedding of the DependencyEntry equality operator (NERegistry.cpp
line 318): entries are equal when their role names are. -/
def DependencyEntry.entryEq (e1 e2 : DependencyEntry) : Bool := e1.mRoleName == e2.mRoleName

/- ============ Addresses and connect events (areg/component) =========== -/

/-- The NEService SOURCE_UNKNOWN sentinel: the source id of a channel not
yet delivered to a real endpoint. -/
def SOURCE_UNKNOWN : Nat := 0

/-- Modelled from the spec: a channel is a cookie, source, target triple
locating the dispatcher owning an endpoint. -/
structure Channel where
  mCookie : Nat
  mSource : Nat
  mTarget : Nat
deriving DecidableEq

/-- Modelled from the spec: the service category, public or local. -/
inductive ServiceCategory
  | servicePublic
  | serviceLocal
deriving DecidableEq

/-- Modelled from the spec: the address of a stub, made of interface
name, role name, category and owning channel (the StubAddress class is
not part of the studied tree). -/
structure StubAddress where
  mServiceName : String
  mRoleName : String
  mCategory : ServiceCategory
  mChannel : Channel
deriving DecidableEq

/-- Modelled from the spec: the address of a proxy, of the same shape as
a stub address. -/
structure ProxyAddress where
  mServiceName : String
  mRoleName : String
  mCategory : ServiceCategory
  mChannel : Channel
deriving DecidableEq

/-- Source id of a stub address, taken from its channel. -/
def StubAddress.getSource (a : StubAddress) : Nat := a.mChannel.mSource

/-- Cookie of a stub address, taken from its channel. -/
def StubAddress.getCookie (a : StubAddress) : Nat := a.mChannel.mCookie

/-- Modelled from the spec: a stub address is local when its cookie
matches the process cookie. -/
def StubAddress.isLocalAddress (procCookie : Nat) (a : StubAddress) : Bool :=
  a.getCookie == procCookie

/-- Modelled from the spec: a stub address is remote when it is not
local. -/
def StubAddress.isRemoteAddress (procCookie : Nat) (a : StubAddress) : Bool :=
  !a.isLocalAddress procCookie

/-- A stub of the public category. -/
def StubAddress.isServicePublic (a : StubAddress) : Bool :=
  a.mCategory == ServiceCategory.servicePublic

/-- Modelled from the spec: an address fails its validity check when its
interface or role name is empty. -/
def StubAddress.isValid (a : StubAddress) : Bool :=
  !a.mServiceName.isEmpty && !a.mRoleName.isEmpty

/-- Channel stamping of an incoming stub address (setChannel). -/
def StubAddress.setChannel (a : StubAddress) (ch : Channel) : StubAddress :=
  { a with mChannel := ch }

/-- Source id of a proxy address, taken from its channel. -/
def ProxyAddress.getSource (a : ProxyAddress) : Nat := a.mChannel.mSource

/-- Cookie of a proxy address, taken from its channel. -/
def ProxyAddress.getCookie (a : ProxyAddress) : Nat := a.mChannel.mCookie

/-- Modelled from the spec: a proxy address is local when its cookie
matches the process cookie. -/
def ProxyAddress.isLocalAddress (procCookie : Nat) (a : ProxyAddress) : Bool :=
  a.getCookie == procCookie

/-- Modelled from the spec: a proxy address is remote when it is not
local. -/
def ProxyAddress.isRemoteAddress (procCookie : Nat) (a : ProxyAddress) : Bool :=
  !a.isLocalAddress procCookie

/-- A proxy of the public category. -/
def ProxyAddress.isServicePublic (a : ProxyAddress) : Bool :=
  a.mCategory == ServiceCategory.servicePublic

/-- Modelled from the spec: an address fails its validity check when its
interface or role name is empty. -/
def ProxyAddress.isValid (a : ProxyAddress) : Bool :=
  !a.mServiceName.isEmpty && !a.mRoleName.isEmpty

/-- Channel stamping of an incoming proxy address (setChannel). -/
def ProxyAddress.setChannel (a : ProxyAddress) (ch : Channel) : ProxyAddress :=
  { a with mChannel := ch }

/-- Modelled from the spec: stub addresses are equal when their
interface, role, category, cookie and source agree; the channel target
does not participate in identity. -/
def stubAddrEq (a b : StubAddress) : Bool :=
  a.mServiceName == b.mServiceName && a.mRoleName == b.mRoleName
    && a.mCategory == b.mCategory && a.getCookie == b.getCookie && a.getSource == b.getSource

/-- Modelled from the spec: proxy addresses are equal when their
interface, role, category, cookie and source agree. -/
def proxyAddrEq (a b : ProxyAddress) : Bool :=
  a.mServiceName == b.mServiceName && a.mRoleName == b.mRoleName
    && a.mCategory == b.mCategory && a.getCookie == b.getCookie && a.getSource == b.getSource

/-- The invalid stub address: empty names, unknown channel.  It plays the
role of the address of a pending directory entry with no stub. -/
def emptyStubAddress : StubAddress :=
  { mServiceName := "", mRoleName := "", mCategory := ServiceCategory.serviceLocal
  , mChannel := { mCookie := 0, mSource := 0, mTarget := 0 } }

/-- Embedding of the NEService eServiceConnection status values used by
the service manager. -/
inductive EServiceConnection
  | ServiceConnectionUnknown
  | ServicePending
  | ServiceConnected
  | ServiceDisconnected
deriving DecidableEq

/-- Modelled from the spec: a client record, the proxy address together
with its last connection status (the ClientInfo class is not part of the
studied tree). -/
structure ClientInfo where
  mClientAddress : ProxyAddress
  mStatus : EServiceConnection
deriving DecidableEq

/-- Modelled from the spec: a client is connected exactly when its status
is Connected. -/
def ClientInfo.isConnected (c : ClientInfo) : Bool :=
  c.mStatus == EServiceConnection.ServiceConnected

/-- Modelled from the spec: a client is waiting for a connection when its
status is Pending or Connected, that is, when it has once been told
something. -/
def ClientInfo.isWaitingConnection (c : ClientInfo) : Bool :=
  c.mStatus == EServiceConnection.ServicePending
    || c.mStatus == EServiceConnection.ServiceConnected

/-- The invalid client record returned when an unregister request finds
no matching proxy. -/
def invalidClientInfo : ClientInfo :=
  { mClientAddress :=
      { mServiceName := "", mRoleName := "", mCategory := ServiceCategory.serviceLocal
      , mChannel := { mCookie := 0, mSource := 0, mTarget := 0 } }
  , mStatus := EServiceConnection.ServiceConnectionUnknown }

/-- Connect notification events emitted by the service manager: a
StubConnectEvent is addressed to the owning stub, a ProxyConnectEvent to
the owning proxy; both carry the two endpoint addresses and the status. -/
inductive ConnectEvent
  | stubConnect (addrProxy : ProxyAddress) (addrStub : StubAddress) (status : EServiceConnection)
  | proxyConnect (addrProxy : ProxyAddress) (addrStub : StubAddress) (status : EServiceConnection)
deriving DecidableEq

/-- Calls the service manager makes into the remote router adapter; the
transport itself is outside the studied scope, so the calls are recorded
as a trace. -/
inductive RouterOp
  | registerService (addr : StubAddress)
  | unregisterService (addr : StubAddress)
  | registerServiceClient (addr : ProxyAddress)
  | unregisterServiceClient (addr : ProxyAddress)
  | stopRemoteServicing
  | startRemoteServicing
  | configureRemoteServicing
  | enableRemoteServicing (enable : Bool)
  | setRemoteServiceAddress
deriving DecidableEq

/-- Embedding of ServiceManager _sendClientConnectedEvent
(ServiceManager.cpp lines 287 to 320): when the client is connected, a
StubConnectEvent is delivered if the stub address is local and its source
resolved, then a ProxyConnectEvent if the proxy address is local and its
source resolved. -/
def sendClientConnectedEvent (procCookie : Nat) (client : ClientInfo)
    (addrStub : StubAddress) : List ConnectEvent :=
  if client.isConnected then
    let addrProxy := client.mClientAddress
    (if addrStub.isLocalAddress procCookie && addrStub.getSource != SOURCE_UNKNOWN then
      [ConnectEvent.stubConnect addrProxy addrStub EServiceConnection.ServiceConnected]
    else []) ++
    (if addrProxy.isLocalAddress procCookie && addrProxy.getSource != SOURCE_UNKNOWN then
      [ConnectEvent.proxyConnect addrProxy addrStub EServiceConnection.ServiceConnected]
    else [])
  else []

/-- Embedding of ServiceManager _sendClientDisconnectedEvent
(ServiceManager.cpp lines 322 to 351): when the client is waiting for a
connection, a StubConnectEvent is delivered if the stub address is local
and its source resolved, then a ProxyConnectEvent if the proxy address is
local; the source of the proxy is not tested in this branch. -/
def sendClientDisconnectedEvent (procCookie : Nat) (client : ClientInfo)
    (addrStub : StubAddress) : List ConnectEvent :=
  if client.isWaitingConnection then
    let addrProxy := client.mClientAddress
    (if addrStub.isLocalAddress procCookie && addrStub.getSource != SOURCE_UNKNOWN then
      [ConnectEvent.stubConnect addrProxy addrStub EServiceConnection.ServiceDisconnected]
    else []) ++
    (if addrProxy.isLocalAddress procCookie then
      [ConnectEvent.proxyConnect addrProxy addrStub EServiceConnection.ServiceDisconnected]
    else [])
  else []

/- ================= Server directory (areg/component) ================== -/

/-- Modelled from the spec: one entry of the server directory, keyed by
the interface and role pair: the (possibly still pending, hence absent)
stub address, the connection status of the server, and the ordered list
of client records (the ServerList container is not part of the studied
tree). -/
structure ServerEntry where
  siName : String
  siRole : String
  siStub : Option StubAddress
  siStatus : EServiceConnection
  siClients : List ClientInfo
deriving DecidableEq

/-- The server directory: a mapping from server keys to client lists,
modelled as an ordered list of entries with pairwise distinct keys. -/
abbrev ServerList := List ServerEntry

/-- Address reported for a directory entry: the stub address, or the
invalid address when the entry is pending. -/
def ServerEntry.getAddress (e : ServerEntry) : StubAddress :=
  e.siStub.getD emptyStubAddress

/-- Modelled from the spec: the compatibility rule. Within an entry the
interface and role already agree, so a stub matches a proxy when the stub
category is public or both endpoints are local to the process. -/
def compatible (procCookie : Nat) (s : StubAddress) (p : ProxyAddress) : Bool :=
  s.isServicePublic || (s.isLocalAddress procCookie && p.isLocalAddress procCookie)

/-- Key test of a directory entry against a stub address. -/
def ServerEntry.keyMatchesStub (e : ServerEntry) (a : StubAddress) : Bool :=
  e.siName == a.mServiceName && e.siRole == a.mRoleName

/-- Key test of a directory entry against a proxy address. -/
def ServerEntry.keyMatchesProxy (e : ServerEntry) (a : ProxyAddress) : Bool :=
  e.siName == a.mServiceName && e.siRole == a.mRoleName

/-- Modelled from the spec: registerServer of the directory.  An absent
key creates a fresh Connected entry with no clients; a pending entry is
upgraded in place, its compatible clients becoming Connected and being
returned as the now-resolvable set; an equal stub is an idempotent no-op
and a different stub is rejected, first writer wins. -/
def ServerList.registerServer (procCookie : Nat) (whichServer : StubAddress) :
    ServerList → ServerList × List ClientInfo
  | [] =>
    ([{ siName := whichServer.mServiceName, siRole := whichServer.mRoleName
      , siStub := some whichServer, siStatus := EServiceConnection.ServiceConnected
      , siClients := [] }], [])
  | e :: rest =>
    if e.keyMatchesStub whichServer then
      match e.siStub with
      | none =>
        let clients := e.siClients.map (fun c =>
          if compatible procCookie whichServer c.mClientAddress then
            { c with mStatus := EServiceConnection.ServiceConnected }
          else c)
        ({ e with siStub := some whichServer
                , siStatus := EServiceConnection.ServiceConnected
                , siClients := clients } :: rest
        , clients.filter (fun c => compatible procCookie whichServer c.mClientAddress))
      | some _ => (e :: rest, [])
    else
      let (rest2, clients) := ServerList.registerServer procCookie whichServer rest
      (e :: rest2, clients)

/-- An entry is hit by an unregisterServer request when its key matches
and its stored stub equals the given address. -/
def ServerEntry.stubMatches (e : ServerEntry) (whichServer : StubAddress) : Bool :=
  e.keyMatchesStub whichServer &&
    (match e.siStub with | some a => stubAddrEq a whichServer | none => false)

/-- Clearing an entry on unregisterServer: the stub goes back to pending,
the entry is marked Disconnected, and the remaining clients are
downgraded to Pending per the directory invariant. -/
def ServerEntry.clearServer (e : ServerEntry) : ServerEntry :=
  { e with siStub := none
         , siStatus := EServiceConnection.ServiceDisconnected
         , siClients := e.siClients.map
             (fun c => { c with mStatus := EServiceConnection.ServicePending }) }

/-- Modelled from the spec: unregisterServer of the directory.  The key
is looked up (keys are pairwise distinct, so the update is rendered as a
map over the entries); when absent, or when the stored stub does not
match the given address, nothing changes and no client is reported.
Otherwise the entry is cleared and its previous client list returned so
that every client is notified; the entry itself remains. -/
def ServerList.unregisterServer (whichServer : StubAddress) (dir : ServerList) :
    ServerList × List ClientInfo :=
  ( dir.map (fun e => if e.stubMatches whichServer then e.clearServer else e)
  , (dir.map (fun e => if e.stubMatches whichServer then e.siClients else [])).flatten )

/-- Modelled from the spec: registerClient of the directory.  An absent
key creates a pending placeholder entry holding the new Pending client;
under an existing entry the client is appended, Connected when the stub
is present, Connected and compatible, else Pending.  Returns the new
directory, the stored client record and the stub address the proxy is
now subscribed to. -/
def ServerList.registerClient (procCookie : Nat) (whichClient : ProxyAddress) :
    ServerList → ServerList × ClientInfo × Option StubAddress
  | [] =>
    let c : ClientInfo := { mClientAddress := whichClient
                          , mStatus := EServiceConnection.ServicePending }
    ([{ siName := whichClient.mServiceName, siRole := whichClient.mRoleName
      , siStub := none, siStatus := EServiceConnection.ServicePending
      , siClients := [c] }], c, none)
  | e :: rest =>
    if e.keyMatchesProxy whichClient then
      let status :=
        match e.siStub with
        | some a =>
          if e.siStatus == EServiceConnection.ServiceConnected
              && compatible procCookie a whichClient then
            EServiceConnection.ServiceConnected
          else EServiceConnection.ServicePending
        | none => EServiceConnection.ServicePending
      let c : ClientInfo := { mClientAddress := whichClient, mStatus := status }
      ({ e with siClients := e.siClients ++ [c] } :: rest, c, e.siStub)
    else
      let (rest2, c, stub) := ServerList.registerClient procCookie whichClient rest
      (e :: rest2, c, stub)

/-- Removal of the first client matching the proxy address inside a
client list; returns the remaining list and the removed record. -/
def removeFirstClient (whichClient : ProxyAddress) :
    List ClientInfo → List ClientInfo × Option ClientInfo
  | [] => ([], none)
  | c :: cs =>
    if proxyAddrEq c.mClientAddress whichClient then (cs, some c)
    else (c :: (removeFirstClient whichClient cs).1, (removeFirstClient whichClient cs).2)

/-- Removal step of unregisterClient on one entry: inside the entry whose
key matches, the first client with the exact proxy address is removed. -/
def ServerEntry.clientRemoved (e : ServerEntry) (whichClient : ProxyAddress) : ServerEntry :=
  if e.keyMatchesProxy whichClient then
    { e with siClients := (removeFirstClient whichClient e.siClients).1 }
  else e

/-- Modelled from the spec: unregisterClient of the directory.  The proxy
is located by exact address equality inside the list of its key entry
(keys are pairwise distinct, so the update is rendered as a map over the
entries) and removed; when that entry is pending and its list becomes
empty the entry is garbage collected.  Returns the new directory, the
removed client record (invalid when nothing matched) and the stub address
of the entry the proxy was listed under. -/
def ServerList.unregisterClient (whichClient : ProxyAddress) (dir : ServerList) :
    ServerList × ClientInfo × Option StubAddress :=
  let dir2 := (dir.map (fun e => e.clientRemoved whichClient)).filter
    (fun e => !(e.keyMatchesProxy whichClient && e.siStub.isNone && e.siClients.isEmpty))
  let found := (dir.map (fun e =>
    if e.keyMatchesProxy whichClient then
      match (removeFirstClient whichClient e.siClients).2 with
      | some c => [(c, e.siStub)]
      | none => []
    else [])).flatten
  match found with
  | pair :: _ => (dir2, pair.1, pair.2)
  | [] => (dir2, invalidClientInfo, none)

/- =============== Service manager (areg/component) ===================== -/

/-- Runtime class identity of an event, the tag the dispatcher uses to
accept or reject posted events. -/
inductive RuntimeClassId
  | ServiceManagerEventClass
  | TimerEventClass
  | OtherEventClass
deriving DecidableEq

/-- An event as seen by postEvent: its runtime class and an identity. -/
structure EventItem where
  runtimeClass : RuntimeClassId
  eventId : Nat
deriving DecidableEq

/-- State of the service manager dispatcher: the server directory, the
queue of pending events and the exit flag of the worker thread. -/
structure SMState where
  mServerList : ServerList
  queue : List EventItem
  exited : Bool
deriving DecidableEq

/-- Outcome of processing one command: the successor state, the connect
events delivered to stubs and proxies, and the recorded router calls. -/
structure SMOutcome where
  state : SMState
  events : List ConnectEvent
  router : List RouterOp
deriving DecidableEq

/-- Embedding of ServiceManager _registerServer (ServiceManager.cpp lines
208 to 229): announce a local public stub to the router, register it in
the directory, and emit a connected notification for every waiting client
returned. -/
def registerServerOp (procCookie : Nat) (dir : ServerList) (whichServer : StubAddress) :
    ServerList × List ConnectEvent × List RouterOp :=
  let router :=
    if whichServer.isLocalAddress procCookie && whichServer.isServicePublic then
      [RouterOp.registerService whichServer]
    else []
  let (dir2, clientList) := ServerList.registerServer procCookie whichServer dir
  (dir2, (clientList.map (fun c => sendClientConnectedEvent procCookie c whichServer)).flatten, router)

/-- Embedding of ServiceManager _unregisterServer (ServiceManager.cpp
lines 231 to 248): announce the withdrawal of a local public stub to the
router, unregister it from the directory, and emit a disconnected
notification for every affected client returned. -/
def unregisterServerOp (procCookie : Nat) (dir : ServerList) (whichServer : StubAddress) :
    ServerList × List ConnectEvent × List RouterOp :=
  let router :=
    if whichServer.isLocalAddress procCookie && whichServer.isServicePublic then
      [RouterOp.unregisterService whichServer]
    else []
  ( (ServerList.unregisterServer whichServer dir).1
  , ((ServerList.unregisterServer whichServer dir).2.map
      (fun c => sendClientDisconnectedEvent procCookie c whichServer)).flatten
  , router)

/-- Embedding of ServiceManager _registerClient (ServiceManager.cpp lines
250 to 266): announce a local public proxy to the router, register it in
the directory, and emit the connected notification for the stored client
against the address of the server it subscribed to. -/
def registerClientOp (procCookie : Nat) (dir : ServerList) (whichClient : ProxyAddress) :
    ServerList × List ConnectEvent × List RouterOp :=
  let router :=
    if whichClient.isLocalAddress procCookie && whichClient.isServicePublic then
      [RouterOp.registerServiceClient whichClient]
    else []
  let (dir2, client, stub) := ServerList.registerClient procCookie whichClient dir
  (dir2, sendClientConnectedEvent procCookie client (stub.getD emptyStubAddress), router)

/-- Embedding of ServiceManager _unregisterClient (ServiceManager.cpp
lines 268 to 285): announce the withdrawal of a local public proxy to the
router, unregister it from the directory, and emit the disconnected
notification for the removed client. -/
def unregisterClientOp (procCookie : Nat) (dir : ServerList) (whichClient : ProxyAddress) :
    ServerList × List ConnectEvent × List RouterOp :=
  let router :=
    if whichClient.isLocalAddress procCookie && whichClient.isServicePublic then
      [RouterOp.unregisterServiceClient whichClient]
    else []
  ( (ServerList.unregisterClient whichClient dir).1
  , sendClientDisconnectedEvent procCookie (ServerList.unregisterClient whichClient dir).2.1
      ((ServerList.unregisterClient whichClient dir).2.2.getD emptyStubAddress)
  , router)

/-- Embedding of the ServiceManagerEventData command set consumed by
processEvent.  The connection configuration payloads (file path, host and
port) only feed the remote router, whose transport is outside the studied
scope, and are not carried. -/
inductive SMCommand
  | CMD_ShutdownService
  | CMD_StopRoutingClient
  | CMD_RegisterProxy (addrProxy : ProxyAddress) (channel : Channel)
  | CMD_UnregisterProxy (addrProxy : ProxyAddress) (channel : Channel)
  | CMD_RegisterStub (addrStub : StubAddress) (channel : Channel)
  | CMD_UnregisterStub (addrStub : StubAddress) (channel : Channel)
  | CMD_StopConnection
  | CMD_SetEnableService (enable : Bool)
  | CMD_RegisterConnection
  | CMD_UnregisterConnection
  | CMD_LostConnection
deriving DecidableEq

/-- The stub collection pass of the UnregisterConnection and
LostConnection handler (ServiceManager.cpp lines 521 to 527): every
public, remote and valid stub address of the directory, in entry order. -/
def collectRemoteStubs (procCookie : Nat) (dir : ServerList) : List StubAddress :=
  (dir.map (fun e =>
    match e.siStub with
    | some a =>
      if a.isServicePublic && a.isRemoteAddress procCookie && a.isValid then [a] else []
    | none => [])).flatten

/-- The proxy collection pass of the UnregisterConnection and
LostConnection handler (ServiceManager.cpp lines 529 to 534): every
public, remote and valid proxy address found in the client lists, in
entry and list order. -/
def collectRemoteProxies (procCookie : Nat) (dir : ServerList) : List ProxyAddress :=
  (dir.map (fun e =>
    (e.siClients.map (fun c =>
      if c.mClientAddress.isServicePublic && c.mClientAddress.isRemoteAddress procCookie
          && c.mClientAddress.isValid then
        [c.mClientAddress]
      else [])).flatten)).flatten

/-- The loop of ServiceManager.cpp lines 537 to 540: unregister each
collected stub in turn, accumulating the emitted events and router
calls. -/
def unregisterServerFold (procCookie : Nat) (dir : ServerList) :
    List StubAddress → ServerList × List ConnectEvent × List RouterOp
  | [] => (dir, [], [])
  | s :: rest =>
    ( (unregisterServerFold procCookie (unregisterServerOp procCookie dir s).1 rest).1
    , (unregisterServerOp procCookie dir s).2.1
        ++ (unregisterServerFold procCookie (unregisterServerOp procCookie dir s).1 rest).2.1
    , (unregisterServerOp procCookie dir s).2.2
        ++ (unregisterServerFold procCookie (unregisterServerOp procCookie dir s).1 rest).2.2 )

/-- The loop of ServiceManager.cpp lines 542 to 545: unregister each
collected proxy in turn, accumulating the emitted events and router
calls. -/
def unregisterClientFold (procCookie : Nat) (dir : ServerList) :
    List ProxyAddress → ServerList × List ConnectEvent × List RouterOp
  | [] => (dir, [], [])
  | p :: rest =>
    ( (unregisterClientFold procCookie (unregisterClientOp procCookie dir p).1 rest).1
    , (unregisterClientOp procCookie dir p).2.1
        ++ (unregisterClientFold procCookie (unregisterClientOp procCookie dir p).1 rest).2.1
    , (unregisterClientOp procCookie dir p).2.2
        ++ (unregisterClientFold procCookie (unregisterClientOp procCookie dir p).1 rest).2.2 )

/-- Events emitted by the StopRoutingClient drain loop (ServiceManager.cpp
lines 375 to 386): for every directory entry and every client in its
list, a disconnected notification against the entry address. -/
def drainEvents (procCookie : Nat) (dir : ServerList) : List ConnectEvent :=
  (dir.map (fun e =>
    (e.siClients.map (fun c =>
      sendClientDisconnectedEvent procCookie c e.getAddress)).flatten)).flatten

/-- The router re-announcement loop of the RegisterConnection handler
(ServiceManager.cpp lines 496 to 513): register every public local valid
stub, and under each entry every public local valid proxy. -/
def reannounceRouter (procCookie : Nat) (dir : ServerList) : List RouterOp :=
  (dir.map (fun e =>
    (match e.siStub with
     | some a =>
       if a.isServicePublic && a.isLocalAddress procCookie && a.isValid then
         [RouterOp.registerService a]
       else []
     | none => []) ++
    (e.siClients.map (fun c =>
      if c.mClientAddress.isServicePublic && c.mClientAddress.isLocalAddress procCookie
          && c.mClientAddress.isValid then
        [RouterOp.registerServiceClient c.mClientAddress]
      else [])).flatten)).flatten

/-- Embedding of ServiceManager processEvent (ServiceManager.cpp lines
353 to 554).  ShutdownService drops every queued event, empties the
directory, stops the router and triggers the exit event without emitting
notifications; StopRoutingClient first drains a disconnected notification
to every listed client, then does the same; the register and unregister
commands stamp the carried channel onto the address and run the
corresponding directory operation; UnregisterConnection and
LostConnection collect the public remote valid stubs and proxies and
unregister them one by one. -/
def processEvent (procCookie : Nat) (st : SMState) : SMCommand → SMOutcome
  | SMCommand.CMD_ShutdownService =>
    { state := { mServerList := [], queue := [], exited := true }
    , events := []
    , router := [RouterOp.stopRemoteServicing] }
  | SMCommand.CMD_StopRoutingClient =>
    { state := { mServerList := [], queue := [], exited := true }
    , events := drainEvents procCookie st.mServerList
    , router := [RouterOp.stopRemoteServicing] }
  | SMCommand.CMD_RegisterProxy addrProxy channel =>
    let (dir2, ev, r) := registerClientOp procCookie st.mServerList (addrProxy.setChannel channel)
    { state := { st with mServerList := dir2 }, events := ev, router := r }
  | SMCommand.CMD_UnregisterProxy addrProxy channel =>
    let (dir2, ev, r) := unregisterClientOp procCookie st.mServerList (addrProxy.setChannel channel)
    { state := { st with mServerList := dir2 }, events := ev, router := r }
  | SMCommand.CMD_RegisterStub addrStub channel =>
    let (dir2, ev, r) := registerServerOp procCookie st.mServerList (addrStub.setChannel channel)
    { state := { st with mServerList := dir2 }, events := ev, router := r }
  | SMCommand.CMD_UnregisterStub addrStub channel =>
    let (dir2, ev, r) := unregisterServerOp procCookie st.mServerList (addrStub.setChannel channel)
    { state := { st with mServerList := dir2 }, events := ev, router := r }
  | SMCommand.CMD_StopConnection =>
    { state := st, events := [], router := [RouterOp.stopRemoteServicing] }
  | SMCommand.CMD_SetEnableService enable =>
    { state := st, events := [], router := [RouterOp.enableRemoteServicing enable] }
  | SMCommand.CMD_RegisterConnection =>
    { state := st, events := [], router := reannounceRouter procCookie st.mServerList }
  | SMCommand.CMD_UnregisterConnection =>
    let s1 := unregisterServerFold procCookie st.mServerList
      (collectRemoteStubs procCookie st.mServerList)
    let s2 := unregisterClientFold procCookie s1.1
      (collectRemoteProxies procCookie st.mServerList)
    { state := { st with mServerList := s2.1 }
    , events := s1.2.1 ++ s2.2.1, router := s1.2.2 ++ s2.2.2 }
  | SMCommand.CMD_LostConnection =>
    let s1 := unregisterServerFold procCookie st.mServerList
      (collectRemoteStubs procCookie st.mServerList)
    let s2 := unregisterClientFold procCookie s1.1
      (collectRemoteProxies procCookie st.mServerList)
    { state := { st with mServerList := s2.1 }
    , events := s1.2.1 ++ s2.2.1, router := s1.2.2 ++ s2.2.2 }

/-- Embedding of ServiceManager postEvent (ServiceManager.cpp lines 556
to 569): an event whose runtime class is the service manager event class
is forwarded to the dispatcher queue; any other event is destroyed at
once and false is returned.  The result carries the new state, whether
the event was posted and whether it was destroyed. -/
def postEvent (st : SMState) (eventElem : EventItem) : SMState × Bool × Bool :=
  if eventElem.runtimeClass = RuntimeClassId.ServiceManagerEventClass then
    ({ st with queue := st.queue ++ [eventElem] }, true, false)
  else
    (st, false, true)

/- ===================== Concrete fixtures ============================== -/

/-- The comment-free part of a configuration line of the shape the
specification describes: blanks, key token, blanks, equality sign,
blanks, value token, blanks. -/
def coreOf (a b c d : Nat) (key value : Chars) : Chars :=
  List.replicate a ' ' ++ key ++ List.replicate b ' ' ++ [syntaxEqualChar]
    ++ List.replicate c ' ' ++ value ++ List.replicate d ' '

/-- A configuration line of the shape the specification describes: the
comment-free core followed by an optional trailing comment introduced by
the comment marker. -/
def configLineOf (a b c d : Nat) (key value : Chars) (comment : Option Chars) : Chars :=
  coreOf a b c d key value
    ++ (match comment with | none => [] | some cs => syntaxCommentChar :: cs)

/-- A local proxy address (cookie 1 in a process of cookie 1) with a
resolved source, used by the shutdown drain scenario. -/
def fixLocalProxy : ProxyAddress :=
  { mServiceName := "Svc", mRoleName := "Role", mCategory := ServiceCategory.servicePublic
  , mChannel := { mCookie := 1, mSource := 5, mTarget := 0 } }

/-- A dispatcher state holding one pending directory entry with a single
unmatched waiting proxy and one queued event. -/
def fixShutdownState : SMState :=
  { mServerList := [{ siName := "Svc", siRole := "Role", siStub := none
                    , siStatus := EServiceConnection.ServicePending
                    , siClients := [{ mClientAddress := fixLocalProxy
                                    , mStatus := EServiceConnection.ServicePending }] }]
  , queue := [{ runtimeClass := RuntimeClassId.ServiceManagerEventClass, eventId := 0 }]
  , exited := false }

/-- A local proxy address whose channel source is still unknown. -/
def fixUnknownSourceProxy : ProxyAddress :=
  { mServiceName := "Svc", mRoleName := "Role", mCategory := ServiceCategory.servicePublic
  , mChannel := { mCookie := 1, mSource := 0, mTarget := 0 } }

/-- A client record for the unknown-source proxy whose last status is
Pending, hence waiting for a connection. -/
def fixUnknownSourceClient : ClientInfo :=
  { mClientAddress := fixUnknownSourceProxy, mStatus := EServiceConnection.ServicePending }

/-- A remote stub address (cookie 2 seen from a process of cookie 1). -/
def fixRemoteStub : StubAddress :=
  { mServiceName := "Svc", mRoleName := "Role", mCategory := ServiceCategory.servicePublic
  , mChannel := { mCookie := 2, mSource := 4, mTarget := 0 } }

/-- A remote stub address of the local service category: it never crossed
the router, yet carries a foreign cookie. -/
def fixRemoteLocalScopeStub : StubAddress :=
  { mServiceName := "SvcA", mRoleName := "RoleA", mCategory := ServiceCategory.serviceLocal
  , mChannel := { mCookie := 2, mSource := 3, mTarget := 0 } }

/-- A remote public stub address under its own key. -/
def fixRemotePublicStub : StubAddress :=
  { mServiceName := "SvcB", mRoleName := "RoleB", mCategory := ServiceCategory.servicePublic
  , mChannel := { mCookie := 2, mSource := 4, mTarget := 0 } }

/-- A local proxy subscribed to the remote public stub. -/
def fixLocalClientProxy : ProxyAddress :=
  { mServiceName := "SvcB", mRoleName := "RoleB", mCategory := ServiceCategory.servicePublic
  , mChannel := { mCookie := 1, mSource := 6, mTarget := 0 } }

/-- A dispatcher state whose directory holds a remote local-scope stub
entry and a remote public stub entry with one connected local client. -/
def fixLostConnectionState : SMState :=
  { mServerList :=
      [ { siName := "SvcA", siRole := "RoleA", siStub := some fixRemoteLocalScopeStub
        , siStatus := EServiceConnection.ServiceConnected, siClients := [] }
      , { siName := "SvcB", siRole := "RoleB", siStub := some fixRemotePublicStub
        , siStatus := EServiceConnection.ServiceConnected
        , siClients := [{ mClientAddress := fixLocalClientProxy
                        , mStatus := EServiceConnection.ServiceConnected }] } ]
  , queue := [], exited := false }

/- ======================== Theorems ==================================== -/

/-- C6: in the _add of the sorted linked list the local result position
is initialized to the null position and never assigned before the test
choosing the insertion side, so the test is false on every execution, the
branch calling _insertElementAfter is unreachable, and every insertion is
performed by _insertElementBefore at the computed before position. -/
theorem sortedList_add_always_inserts_before (l : TESortedLinkedList) (newValue : Int) :
    l.addElem newValue = l.insertElementBefore newValue (l.beforePos newValue) := by
  rfl

/-- C3: the claim that add keeps an ascending list ascending from head to
tail fails, and the own documentation of the container (the class
guarantees sorted values) shows the claim is the intent: starting from
the empty ascending list, adding 1 and then 2 stores the chain 2, 1 read
from head to tail, which is not ascending. -/
theorem sortedList_ascending_add_produces_unsorted_chain :
    (((TESortedLinkedList.emptyList true).add 1).bind (fun l => l.add 2)) =
      some { mSorting := ESort.SortAscending, elems := [2, 1] } ∧
    ¬ List.Sorted (· ≤ ·) ([2, 1] : List Int) := by
  constructor
  · rfl
  · decide

/-- C2: the round-trip claim fails, and the duplicated comment test of
convToString (the else-if branch repeats the condition of the if branch,
so it is dead) shows the code is a slip: the text consisting of a valid
key-value pair and a short trailing comment parses as valid, yet its
serialization is the empty string, losing the pair. -/
theorem property_roundTrip_drops_valid_pair :
    (Property.parseProperty Property.emptyProperty ("log.enable=true #c".toList)).2 = true ∧
    (Property.parseProperty Property.emptyProperty ("log.enable=true #c".toList)).1.convToString
      = [] := by
  decide

/-- C10: an entry failing its validity test is never inserted: addEntry
and placeEntry leave the registry list unchanged and return the invalid
index instead of appending or overwriting. -/
theorem registry_addEntry_rejects_invalid_entry {Entry : Type} (isValidE : Entry → Bool)
    (eqE : Entry → Entry → Bool) (l : TEListBase Entry) (entry : Entry) (unique : Bool)
    (h : isValidE entry = false) :
    l.addEntry isValidE eqE entry unique = (l, INVALID_INDEX) ∧
    l.placeEntry isValidE eqE entry unique = (l, INVALID_INDEX) := by
  unfold TEListBase.addEntry TEListBase.placeEntry
  rw [h]
  simp

/-- Witness for C10: a dependency entry with an empty role name is
invalid and is rejected by a dependency list holding one valid entry. -/
theorem registry_addEntry_rejects_invalid_entry_witness :
    TEListBase.addEntry DependencyEntry.entryIsValid DependencyEntry.entryEq
        { mList := [{ mRoleName := "serviceRole" }] } { mRoleName := "" } true =
      ({ mList := [{ mRoleName := "serviceRole" }] }, INVALID_INDEX) ∧
    TEListBase.placeEntry DependencyEntry.entryIsValid DependencyEntry.entryEq
        { mList := [{ mRoleName := "serviceRole" }] } { mRoleName := "" } true =
      ({ mList := [{ mRoleName := "serviceRole" }] }, INVALID_INDEX) :=
  registry_addEntry_rejects_invalid_entry DependencyEntry.entryIsValid DependencyEntry.entryEq
    { mList := [{ mRoleName := "serviceRole" }] } { mRoleName := "" } true (by decide)

/-- C8: postEvent enqueues an event exactly when its runtime class is the
service manager event class; any other event is destroyed immediately,
false is returned, the queue is left as it was and the directory is not
mutated. -/
theorem postEvent_accepts_only_serviceManagerEvents (st : SMState) (eventElem : EventItem) :
    (eventElem.runtimeClass ≠ RuntimeClassId.ServiceManagerEventClass →
      postEvent st eventElem = (st, false, true)) ∧
    (eventElem.runtimeClass = RuntimeClassId.ServiceManagerEventClass →
      postEvent st eventElem = ({ st with queue := st.queue ++ [eventElem] }, true, false)) := by
  constructor <;> intro h <;> simp [postEvent, h]

/-- Witness for C8: a timer event posted to an empty service manager
state is rejected, destroyed and leaves the state unchanged. -/
theorem postEvent_accepts_only_serviceManagerEvents_witness :
    postEvent { mServerList := [], queue := [], exited := false }
        { runtimeClass := RuntimeClassId.TimerEventClass, eventId := 3 } =
      ({ mServerList := [], queue := [], exited := false }, false, true) :=
  (postEvent_accepts_only_serviceManagerEvents
    { mServerList := [], queue := [], exited := false }
    { runtimeClass := RuntimeClassId.TimerEventClass, eventId := 3 }).1 (by decide)

/-- C5: a disconnected notification is only ever produced for a client
whose last recorded status makes isWaitingConnection true: for a client
that is not waiting the emission function returns no events, and every
emitted event presupposes a waiting client. -/
theorem disconnect_only_for_waiting_clients (procCookie : Nat) (client : ClientInfo)
    (addrStub : StubAddress) :
    (client.isWaitingConnection = false →
      sendClientDisconnectedEvent procCookie client addrStub = []) ∧
    (∀ ev ∈ sendClientDisconnectedEvent procCookie client addrStub,
      client.isWaitingConnection = true) := by
  constructor
  · intro h
    simp [sendClientDisconnectedEvent, h]
  · intro ev hev
    by_cases h : client.isWaitingConnection
    · exact h
    · simp [sendClientDisconnectedEvent, h] at hev

/-- Witness for C5: a client whose last status is Disconnected is not
waiting, and no notification is emitted for it. -/
theorem disconnect_only_for_waiting_clients_witness :
    sendClientDisconnectedEvent 1
        { mClientAddress := fixLocalProxy, mStatus := EServiceConnection.ServiceDisconnected }
        fixRemoteStub = [] :=
  (disconnect_only_for_waiting_clients 1
    { mClientAddress := fixLocalProxy, mStatus := EServiceConnection.ServiceDisconnected }
    fixRemoteStub).1 (by decide)

/-- C4 counterexample: the claim that the disconnected ProxyConnect is
delivered only when the proxy source is resolved fails: a waiting client
whose local proxy still has the unknown source receives the disconnected
ProxyConnect notification. -/
theorem disconnected_proxyNotify_ignores_source_cex :
    ConnectEvent.proxyConnect fixUnknownSourceProxy fixRemoteStub
        EServiceConnection.ServiceDisconnected ∈
      sendClientDisconnectedEvent 1 fixUnknownSourceClient fixRemoteStub ∧
    fixUnknownSourceProxy.getSource = SOURCE_UNKNOWN := by
  decide

/-- C4 amended: for the Connected notification a StubConnect is delivered
iff the stub is local with resolved source and a ProxyConnect iff the
proxy is local with resolved source; for the Disconnected notification
the StubConnect conditions are the same, but the ProxyConnect is
delivered iff the proxy is local, its source not being examined. -/
theorem connect_event_delivery_conditions (procCookie : Nat) (client : ClientInfo)
    (addrStub : StubAddress) :
    (ConnectEvent.stubConnect client.mClientAddress addrStub
        EServiceConnection.ServiceConnected ∈
        sendClientConnectedEvent procCookie client addrStub ↔
      client.isConnected = true ∧ addrStub.isLocalAddress procCookie = true ∧
        addrStub.getSource ≠ SOURCE_UNKNOWN) ∧
    (ConnectEvent.proxyConnect client.mClientAddress addrStub
        EServiceConnection.ServiceConnected ∈
        sendClientConnectedEvent procCookie client addrStub ↔
      client.isConnected = true ∧ client.mClientAddress.isLocalAddress procCookie = true ∧
        client.mClientAddress.getSource ≠ SOURCE_UNKNOWN) ∧
    (ConnectEvent.stubConnect client.mClientAddress addrStub
        EServiceConnection.ServiceDisconnected ∈
        sendClientDisconnectedEvent procCookie client addrStub ↔
      client.isWaitingConnection = true ∧ addrStub.isLocalAddress procCookie = true ∧
        addrStub.getSource ≠ SOURCE_UNKNOWN) ∧
    (ConnectEvent.proxyConnect client.mClientAddress addrStub
        EServiceConnection.ServiceDisconnected ∈
        sendClientDisconnectedEvent procCookie client addrStub ↔
      client.isWaitingConnection = true ∧
        client.mClientAddress.isLocalAddress procCookie = true) := by
  refine ⟨?_, ?_, ?_, ?_⟩
  · by_cases h1 : client.isConnected <;>
      by_cases h2 : addrStub.isLocalAddress procCookie <;>
      by_cases h3 : addrStub.getSource = SOURCE_UNKNOWN <;>
      simp [sendClientConnectedEvent, h1, h2, h3]
  · by_cases h1 : client.isConnected <;>
      by_cases h2 : client.mClientAddress.isLocalAddress procCookie <;>
      by_cases h3 : client.mClientAddress.getSource = SOURCE_UNKNOWN <;>
      simp [sendClientConnectedEvent, h1, h2, h3]
  · by_cases h1 : client.isWaitingConnection <;>
      by_cases h2 : addrStub.isLocalAddress procCookie <;>
      by_cases h3 : addrStub.getSource = SOURCE_UNKNOWN <;>
      simp [sendClientDisconnectedEvent, h1, h2, h3]
  · by_cases h1 : client.isWaitingConnection <;>
      by_cases h2 : client.mClientAddress.isLocalAddress procCookie <;>
      simp [sendClientDisconnectedEvent, h1, h2]

/-- C1 counterexample: the claim that a ShutdownService command emits a
disconnected ProxyConnect to every waiting unmatched proxy fails: with
one registered unmatched waiting proxy the shutdown handler emits no
event at all, while it does empty the queue and trigger the exit. -/
theorem shutdown_emits_no_disconnect_cex :
    ((fixShutdownState.mServerList.map
        (fun e => e.siClients.filter (fun c => c.isWaitingConnection))).flatten).length = 1 ∧
    (processEvent 1 fixShutdownState SMCommand.CMD_ShutdownService).events = [] ∧
    (processEvent 1 fixShutdownState SMCommand.CMD_ShutdownService).state.queue = [] ∧
    (processEvent 1 fixShutdownState SMCommand.CMD_ShutdownService).state.exited = true := by
  decide

/-- C1 amended: processing ShutdownService drops every queued event,
empties the directory, stops the router and triggers the exit without
emitting any notification; the synthesized disconnected drain to every
still-waiting local proxy is performed by the StopRoutingClient path. -/
theorem shutdown_drops_events_drain_on_stopRouting (procCookie : Nat) (st : SMState) :
    processEvent procCookie st SMCommand.CMD_ShutdownService =
      { state := { mServerList := [], queue := [], exited := true }
      , events := [], router := [RouterOp.stopRemoteServicing] } ∧
    (∀ e ∈ st.mServerList, ∀ c ∈ e.siClients, c.isWaitingConnection = true →
      c.mClientAddress.isLocalAddress procCookie = true →
      ConnectEvent.proxyConnect c.mClientAddress e.getAddress
          EServiceConnection.ServiceDisconnected ∈
        (processEvent procCookie st SMCommand.CMD_StopRoutingClient).events) := by
  constructor
  · rfl
  · intro e he c hc hw hl
    simp only [processEvent, drainEvents]
    rw [List.mem_flatten]
    refine ⟨_, List.mem_map_of_mem _ he, ?_⟩
    rw [List.mem_flatten]
    refine ⟨_, List.mem_map_of_mem _ hc, ?_⟩
    simp [sendClientDisconnectedEvent, hw, hl]

/-- Witness for the C1 amendment: in the one-proxy state the
StopRoutingClient drain delivers the disconnected ProxyConnect to the
waiting local proxy. -/
theorem shutdown_drops_events_drain_on_stopRouting_witness :
    ConnectEvent.proxyConnect fixLocalProxy emptyStubAddress
        EServiceConnection.ServiceDisconnected ∈
      (processEvent 1 fixShutdownState SMCommand.CMD_StopRoutingClient).events :=
  (shutdown_drops_events_drain_on_stopRouting 1 fixShutdownState).2
    { siName := "Svc", siRole := "Role", siStub := none
    , siStatus := EServiceConnection.ServicePending
    , siClients := [{ mClientAddress := fixLocalProxy
                    , mStatus := EServiceConnection.ServicePending }] }
    (by decide)
    { mClientAddress := fixLocalProxy, mStatus := EServiceConnection.ServicePending }
    (by decide) (by decide) (by decide)

/-- Stub addresses with different cookies are never equal, since the
cookie takes part in address identity. -/
theorem stubAddrEq_false_of_cookie_ne (a b : StubAddress) (h : a.getCookie ≠ b.getCookie) :
    stubAddrEq a b = false := by
  unfold stubAddrEq
  simp [h]

/-- Proxy addresses with different cookies are never equal, since the
cookie takes part in address identity. -/
theorem proxyAddrEq_false_of_cookie_ne (a b : ProxyAddress) (h : a.getCookie ≠ b.getCookie) :
    proxyAddrEq a b = false := by
  unfold proxyAddrEq
  simp [h]

/-- A local and a remote address carry different cookies. -/
theorem cookie_ne_of_local_remote {pc : Nat} {a b : Nat}
    (ha : (a == pc) = true) (hb : (!(b == pc)) = true) : a ≠ b := by
  simp only [beq_iff_eq] at ha
  simp only [Bool.not_eq_eq_eq_not, Bool.not_true, beq_eq_false_iff_ne] at hb
  omega

/-- The client removal step leaves the stub of an entry untouched. -/
theorem clientRemoved_siStub (e : ServerEntry) (p : ProxyAddress) :
    (e.clientRemoved p).siStub = e.siStub := by
  unfold ServerEntry.clientRemoved
  split <;> rfl

/-- Directory component of unregisterClient: clients removed, then the
emptied pending entry of the key dropped. -/
theorem unregisterClient_dir (p : ProxyAddress) (dir : ServerList) :
    (ServerList.unregisterClient p dir).1 =
      (dir.map (fun e => e.clientRemoved p)).filter
        (fun e => !(e.keyMatchesProxy p && e.siStub.isNone && e.siClients.isEmpty)) := by
  unfold ServerList.unregisterClient
  dsimp only
  split <;> rfl

/-- A client whose address does not match the removed proxy survives the
removal of the first matching client. -/
theorem mem_removeFirstClient_of_ne (p : ProxyAddress) (cs : List ClientInfo) (c : ClientInfo)
    (hc : c ∈ cs) (hne : proxyAddrEq c.mClientAddress p = false) :
    c ∈ (removeFirstClient p cs).1 := by
  induction cs with
  | nil => simp at hc
  | cons c0 rest ih =>
    rcases List.mem_cons.mp hc with rfl | hmem
    · simp [removeFirstClient, hne]
    · by_cases h0 : proxyAddrEq c0.mClientAddress p
      · simp [removeFirstClient, h0, hmem]
      · simp only [removeFirstClient, h0, Bool.false_eq_true, if_false, List.mem_cons]
        exact Or.inr (ih hmem)

/-- A local stub address and a remote stub address carry different
cookies. -/
theorem stub_cookie_ne_of_local_remote {pc : Nat} {a w : StubAddress}
    (ha : a.isLocalAddress pc = true) (hw : w.isRemoteAddress pc = true) :
    a.getCookie ≠ w.getCookie := by
  unfold StubAddress.isRemoteAddress at hw
  unfold StubAddress.isLocalAddress at ha hw
  simp only [beq_iff_eq] at ha
  simp only [Bool.not_eq_eq_eq_not, Bool.not_true, beq_eq_false_iff_ne] at hw
  omega

/-- A local proxy address and a remote proxy address carry different
cookies. -/
theorem proxy_cookie_ne_of_local_remote {pc : Nat} {q p : ProxyAddress}
    (hq : q.isLocalAddress pc = true) (hp : p.isRemoteAddress pc = true) :
    q.getCookie ≠ p.getCookie := by
  unfold ProxyAddress.isRemoteAddress at hp
  unfold ProxyAddress.isLocalAddress at hq hp
  simp only [beq_iff_eq] at hq
  simp only [Bool.not_eq_eq_eq_not, Bool.not_true, beq_eq_false_iff_ne] at hp
  omega

/-- Membership in the collected remote stub list: exactly the stubs of
directory entries that are public, remote and valid. -/
theorem mem_collectRemoteStubs (pc : Nat) (dir : ServerList) (a : StubAddress) :
    a ∈ collectRemoteStubs pc dir ↔
      ((∃ e ∈ dir, e.siStub = some a) ∧ a.isServicePublic = true ∧
        a.isRemoteAddress pc = true ∧ a.isValid = true) := by
  unfold collectRemoteStubs
  rw [List.mem_flatten]
  constructor
  · rintro ⟨blk, hblk, hab⟩
    rw [List.mem_map] at hblk
    rcases hblk with ⟨e, he, rfl⟩
    cases hs : e.siStub with
    | none => rw [hs] at hab; simp at hab
    | some b =>
      rw [hs] at hab
      dsimp only at hab
      by_cases hcond : (b.isServicePublic && b.isRemoteAddress pc && b.isValid) = true
      · rw [if_pos hcond] at hab
        rcases List.mem_singleton.mp hab with rfl
        simp only [Bool.and_eq_true] at hcond
        exact ⟨⟨e, he, hs⟩, hcond.1.1, hcond.1.2, hcond.2⟩
      · rw [if_neg hcond] at hab
        simp at hab
  · rintro ⟨⟨e, he, hs⟩, hp, hr, hv⟩
    refine ⟨_, List.mem_map_of_mem _ he, ?_⟩
    rw [hs]
    simp [hp, hr, hv]

/-- Membership in the collected remote proxy list: exactly the client
addresses of the directory that are public, remote and valid. -/
theorem mem_collectRemoteProxies (pc : Nat) (dir : ServerList) (p : ProxyAddress) :
    p ∈ collectRemoteProxies pc dir ↔
      ((∃ e ∈ dir, ∃ c ∈ e.siClients, c.mClientAddress = p) ∧ p.isServicePublic = true ∧
        p.isRemoteAddress pc = true ∧ p.isValid = true) := by
  unfold collectRemoteProxies
  rw [List.mem_flatten]
  constructor
  · rintro ⟨blk, hblk, hpb⟩
    rw [List.mem_map] at hblk
    rcases hblk with ⟨e, he, rfl⟩
    rw [List.mem_flatten] at hpb
    rcases hpb with ⟨blk2, hblk2, hpb2⟩
    rw [List.mem_map] at hblk2
    rcases hblk2 with ⟨c, hc, rfl⟩
    by_cases hcond : (c.mClientAddress.isServicePublic
        && c.mClientAddress.isRemoteAddress pc && c.mClientAddress.isValid) = true
    · rw [if_pos hcond] at hpb2
      rcases List.mem_singleton.mp hpb2 with rfl
      simp only [Bool.and_eq_true] at hcond
      exact ⟨⟨e, he, c, hc, rfl⟩, hcond.1.1, hcond.1.2, hcond.2⟩
    · rw [if_neg hcond] at hpb2
      simp at hpb2
  · rintro ⟨⟨e, he, c, hc, hcp⟩, hp, hr, hv⟩
    refine ⟨_, List.mem_map_of_mem _ he, ?_⟩
    rw [List.mem_flatten]
    refine ⟨_, List.mem_map_of_mem _ hc, ?_⟩
    rw [hcp]
    simp [hp, hr, hv]

/-- A stub with a cookie different from the unregistered one keeps its
entry and address across unregisterServer. -/
theorem unregisterServer_keeps_foreign_stub (w : StubAddress) (dir : ServerList)
    (a : StubAddress) (hne : a.getCookie ≠ w.getCookie) (e : ServerEntry) (he : e ∈ dir)
    (hs : e.siStub = some a) :
    ∃ e2 ∈ (ServerList.unregisterServer w dir).1, e2.siStub = some a := by
  have hm : e.stubMatches w = false := by
    unfold ServerEntry.stubMatches
    rw [hs]
    simp [stubAddrEq_false_of_cookie_ne a w hne]
  refine ⟨_, List.mem_map_of_mem _ he, ?_⟩
  rw [hm]
  simp only [Bool.false_eq_true, if_false]
  exact hs

/-- Client addresses survive unregisterServer: entries are never dropped
and the downgrade of the statuses keeps every address. -/
theorem unregisterServer_keeps_client_address (w : StubAddress) (dir : ServerList)
    (q : ProxyAddress) (e : ServerEntry) (he : e ∈ dir) (c : ClientInfo)
    (hc : c ∈ e.siClients) (hq : c.mClientAddress = q) :
    ∃ e2 ∈ (ServerList.unregisterServer w dir).1, ∃ c2 ∈ e2.siClients,
      c2.mClientAddress = q := by
  refine ⟨_, List.mem_map_of_mem _ he, ?_⟩
  by_cases hm : e.stubMatches w
  · simp only [hm, if_true, ServerEntry.clearServer]
    exact ⟨_, List.mem_map_of_mem _ hc, hq⟩
  · simp only [hm, Bool.false_eq_true, if_false]
    exact ⟨c, hc, hq⟩

/-- Entries holding a stub survive unregisterClient: only emptied pending
entries are garbage collected. -/
theorem unregisterClient_keeps_stub (p : ProxyAddress) (dir : ServerList) (a : StubAddress)
    (e : ServerEntry) (he : e ∈ dir) (hs : e.siStub = some a) :
    ∃ e2 ∈ (ServerList.unregisterClient p dir).1, e2.siStub = some a := by
  rw [unregisterClient_dir]
  have hstub : (e.clientRemoved p).siStub = some a := by rw [clientRemoved_siStub, hs]
  refine ⟨e.clientRemoved p, List.mem_filter.mpr ⟨List.mem_map_of_mem _ he, ?_⟩, hstub⟩
  simp [hstub]

/-- A client whose cookie differs from the unregistered proxy survives
unregisterClient, and keeps its entry alive. -/
theorem unregisterClient_keeps_foreign_client (p : ProxyAddress) (dir : ServerList)
    (q : ProxyAddress) (hne : q.getCookie ≠ p.getCookie) (e : ServerEntry) (he : e ∈ dir)
    (c : ClientInfo) (hc : c ∈ e.siClients) (hq : c.mClientAddress = q) :
    ∃ e2 ∈ (ServerList.unregisterClient p dir).1, ∃ c2 ∈ e2.siClients,
      c2.mClientAddress = q := by
  rw [unregisterClient_dir]
  have haddr : proxyAddrEq c.mClientAddress p = false := by
    rw [hq]
    exact proxyAddrEq_false_of_cookie_ne q p hne
  have hcm : c ∈ (e.clientRemoved p).siClients := by
    unfold ServerEntry.clientRemoved
    split
    · exact mem_removeFirstClient_of_ne p e.siClients c hc haddr
    · exact hc
  refine ⟨e.clientRemoved p, List.mem_filter.mpr ⟨List.mem_map_of_mem _ he, ?_⟩, c, hcm, hq⟩
  have hne2 : (e.clientRemoved p).siClients.isEmpty = false := by
    cases h : (e.clientRemoved p).siClients with
    | nil => rw [h] at hcm; simp at hcm
    | cons x xs => simp
  simp [hne2]

/-- Local stubs survive the whole loop unregistering a list of remote
stubs. -/
theorem serverFold_keeps_local_stub (pc : Nat) (L : List StubAddress)
    (hL : ∀ w ∈ L, w.isRemoteAddress pc = true) (dir : ServerList) (a : StubAddress)
    (ha : a.isLocalAddress pc = true) (h : ∃ e ∈ dir, e.siStub = some a) :
    ∃ e ∈ (unregisterServerFold pc dir L).1, e.siStub = some a := by
  induction L generalizing dir with
  | nil => exact h
  | cons w rest ih =>
    rcases h with ⟨e, he, hs⟩
    have hcne : a.getCookie ≠ w.getCookie :=
      stub_cookie_ne_of_local_remote ha (hL w (List.mem_cons_self w rest))
    exact ih (fun x hx => hL x (List.mem_cons_of_mem w hx)) _
      (unregisterServer_keeps_foreign_stub w dir a hcne e he hs)

/-- Client addresses survive the whole loop unregistering a list of
remote stubs. -/
theorem serverFold_keeps_client_address (pc : Nat) (L : List StubAddress) (dir : ServerList)
    (q : ProxyAddress) (h : ∃ e ∈ dir, ∃ c ∈ e.siClients, c.mClientAddress = q) :
    ∃ e ∈ (unregisterServerFold pc dir L).1, ∃ c ∈ e.siClients, c.mClientAddress = q := by
  induction L generalizing dir with
  | nil => exact h
  | cons w rest ih =>
    rcases h with ⟨e, he, c, hc, hq⟩
    exact ih _ (unregisterServer_keeps_client_address w dir q e he c hc hq)

/-- Registered stubs survive the whole loop unregistering a list of
proxies. -/
theorem clientFold_keeps_stub (pc : Nat) (L : List ProxyAddress) (dir : ServerList)
    (a : StubAddress) (h : ∃ e ∈ dir, e.siStub = some a) :
    ∃ e ∈ (unregisterClientFold pc dir L).1, e.siStub = some a := by
  induction L generalizing dir with
  | nil => exact h
  | cons p rest ih =>
    rcases h with ⟨e, he, hs⟩
    exact ih _ (unregisterClient_keeps_stub p dir a e he hs)

/-- Local clients survive the whole loop unregistering a list of remote
proxies. -/
theorem clientFold_keeps_local_client (pc : Nat) (L : List ProxyAddress)
    (hL : ∀ p ∈ L, p.isRemoteAddress pc = true) (dir : ServerList) (q : ProxyAddress)
    (hq : q.isLocalAddress pc = true)
    (h : ∃ e ∈ dir, ∃ c ∈ e.siClients, c.mClientAddress = q) :
    ∃ e ∈ (unregisterClientFold pc dir L).1, ∃ c ∈ e.siClients, c.mClientAddress = q := by
  induction L generalizing dir with
  | nil => exact h
  | cons p rest ih =>
    rcases h with ⟨e, he, c, hc, hcq⟩
    have hcne : q.getCookie ≠ p.getCookie :=
      proxy_cookie_ne_of_local_remote hq (hL p (List.mem_cons_self p rest))
    exact ih (fun x hx => hL x (List.mem_cons_of_mem p hx)) _
      (unregisterClient_keeps_foreign_client p dir q hcne e he c hc hcq)

/-- C7 counterexample: the claim that a LostConnection command
unregisters every remote entry and leaves local entries unchanged fails.
In a directory holding a remote but local-scope stub and a remote public
stub with a connected local client, processing LostConnection leaves the
remote local-scope stub registered untouched, and the local client
record, though it stays registered, has its status downgraded from
Connected to Pending. -/
theorem lostConnection_remote_filter_cex :
    fixRemoteLocalScopeStub.isRemoteAddress 1 = true ∧
    fixRemoteLocalScopeStub.isValid = true ∧
    (processEvent 1 fixLostConnectionState SMCommand.CMD_LostConnection).state.mServerList =
      [ { siName := "SvcA", siRole := "RoleA", siStub := some fixRemoteLocalScopeStub
        , siStatus := EServiceConnection.ServiceConnected, siClients := [] }
      , { siName := "SvcB", siRole := "RoleB", siStub := none
        , siStatus := EServiceConnection.ServiceDisconnected
        , siClients := [{ mClientAddress := fixLocalClientProxy
                        , mStatus := EServiceConnection.ServicePending }] } ] ∧
    fixLocalClientProxy.isLocalAddress 1 = true ∧
    fixLostConnectionState.mServerList.map (fun e => e.siClients) =
      [ [], [{ mClientAddress := fixLocalClientProxy
             , mStatus := EServiceConnection.ServiceConnected }] ] := by
  decide

/-- C7 amended: UnregisterConnection and LostConnection are processed
alike; the synthesized unregisterServer and unregisterClient calls are
issued exactly for the entries whose address is remote, public and valid;
every local stub keeps an entry carrying its address and every local
client stays registered in a client list (its status may be downgraded
when its server was remote). -/
theorem lostConnection_unregisters_remote_public_valid (procCookie : Nat) (st : SMState) :
    processEvent procCookie st SMCommand.CMD_UnregisterConnection =
      processEvent procCookie st SMCommand.CMD_LostConnection ∧
    (∀ a, a ∈ collectRemoteStubs procCookie st.mServerList ↔
      ((∃ e ∈ st.mServerList, e.siStub = some a) ∧ a.isServicePublic = true ∧
        a.isRemoteAddress procCookie = true ∧ a.isValid = true)) ∧
    (∀ p, p ∈ collectRemoteProxies procCookie st.mServerList ↔
      ((∃ e ∈ st.mServerList, ∃ c ∈ e.siClients, c.mClientAddress = p) ∧
        p.isServicePublic = true ∧ p.isRemoteAddress procCookie = true ∧
        p.isValid = true)) ∧
    (∀ a : StubAddress, a.isLocalAddress procCookie = true →
      (∃ e ∈ st.mServerList, e.siStub = some a) →
      ∃ e ∈ (processEvent procCookie st SMCommand.CMD_LostConnection).state.mServerList,
        e.siStub = some a) ∧
    (∀ q : ProxyAddress, q.isLocalAddress procCookie = true →
      (∃ e ∈ st.mServerList, ∃ c ∈ e.siClients, c.mClientAddress = q) →
      ∃ e ∈ (processEvent procCookie st SMCommand.CMD_LostConnection).state.mServerList,
        ∃ c ∈ e.siClients, c.mClientAddress = q) := by
  refine ⟨rfl, fun a => mem_collectRemoteStubs procCookie st.mServerList a
    , fun p => mem_collectRemoteProxies procCookie st.mServerList p, ?_, ?_⟩
  · intro a ha h
    exact clientFold_keeps_stub procCookie _ _ a
      (serverFold_keeps_local_stub procCookie _
        (fun w hw => ((mem_collectRemoteStubs procCookie st.mServerList w).mp hw).2.2.1)
        st.mServerList a ha h)
  · intro q hq h
    exact clientFold_keeps_local_client procCookie _
      (fun p hp => ((mem_collectRemoteProxies procCookie st.mServerList p).mp hp).2.2.1)
      _ q hq
      (serverFold_keeps_client_address procCookie _ st.mServerList q h)

/-- Witness for the C7 amendment: in the two-entry state the local client
is still registered after the LostConnection processing. -/
theorem lostConnection_unregisters_remote_public_valid_witness :
    ∃ e ∈ (processEvent 1 fixLostConnectionState
        SMCommand.CMD_LostConnection).state.mServerList,
      ∃ c ∈ e.siClients, c.mClientAddress = fixLocalClientProxy :=
  (lostConnection_unregisters_remote_public_valid 1 fixLostConnectionState).2.2.2.2
    fixLocalClientProxy (by decide)
    ⟨{ siName := "SvcB", siRole := "RoleB", siStub := some fixRemotePublicStub
     , siStatus := EServiceConnection.ServiceConnected
     , siClients := [{ mClientAddress := fixLocalClientProxy
                     , mStatus := EServiceConnection.ServiceConnected }] }
    , by decide
    , { mClientAddress := fixLocalClientProxy, mStatus := EServiceConnection.ServiceConnected }
    , by decide, rfl⟩

/-- A character that does not occur in a string is never found. -/
theorem findFirstPos_eq_none (c : Char) (s : Chars) (h : c ∉ s) :
    findFirstPos c s = none := by
  induction s with
  | nil => rfl
  | cons x xs ih =>
    have hx : (x == c) = false := by
      simp only [beq_eq_false_iff_ne]
      intro hxc
      exact h (hxc ▸ List.mem_cons_self x xs)
    simp [findFirstPos, hx, ih (fun hmem => h (List.mem_cons_of_mem x hmem))]

/-- Finding a character prefixed with a string free of it lands on the
length of that prefix. -/
theorem findFirstPos_append_cons (c : Char) (l r : Chars) (h : c ∉ l) :
    findFirstPos c (l ++ c :: r) = some l.length := by
  induction l with
  | nil => simp [findFirstPos]
  | cons x xs ih =>
    have hx : (x == c) = false := by
      simp only [beq_eq_false_iff_ne]
      intro hxc
      exact h (hxc ▸ List.mem_cons_self x xs)
    simp [findFirstPos, hx, ih (fun hmem => h (List.mem_cons_of_mem x hmem))]

/-- Leading blanks are consumed by the dropWhile of the trim. -/
theorem dropWhile_replicate_blank (n : Nat) (s : Chars) :
    (List.replicate n ' ' ++ s).dropWhile isBlankChar = s.dropWhile isBlankChar := by
  induction n with
  | zero => simp
  | succ k ih =>
    rw [List.replicate_succ, List.cons_append, List.dropWhile_cons_of_pos (by rfl)]
    exact ih

/-- Trimming removes exactly the surrounding blanks of a blank-free
non-empty token. -/
theorem trimChars_spaces (a b : Nat) (t : Chars) (ht : t ≠ []) (hts : ' ' ∉ t) :
    trimChars (List.replicate a ' ' ++ t ++ List.replicate b ' ') = t := by
  have hblank : ∀ x ∈ t, ¬ isBlankChar x = true := by
    intro x hx hbx
    unfold isBlankChar at hbx
    simp only [beq_iff_eq] at hbx
    exact hts (hbx ▸ hx)
  have hhead : (t ++ List.replicate b ' ').dropWhile isBlankChar = t ++ List.replicate b ' ' := by
    cases t with
    | nil => exact absurd rfl ht
    | cons x xs =>
      rw [List.cons_append]
      exact List.dropWhile_cons_of_neg (hblank x (List.mem_cons_self x xs))
  have hrevne : t.reverse ≠ [] := by simpa using ht
  have hrevdrop : t.reverse.dropWhile isBlankChar = t.reverse := by
    cases hr : t.reverse with
    | nil => exact absurd hr hrevne
    | cons y ys =>
      have hy : y ∈ t := List.mem_reverse.mp (by rw [hr]; exact List.mem_cons_self y ys)
      exact List.dropWhile_cons_of_neg (hblank y hy)
  unfold trimChars
  rw [List.append_assoc, dropWhile_replicate_blank, hhead, List.reverse_append,
    List.reverse_replicate, dropWhile_replicate_blank, hrevdrop, List.reverse_reverse]

/-- Splitting facts for a comment-free line made of a separator-free
prefix, the equality sign and a suffix. -/
theorem traceParse_no_comment (X Y : Chars) (tp : TraceProperty)
    (hX : '#' ∉ X) (hY : '#' ∉ Y) (hXe : '=' ∉ X) :
    (tp.parseProperty (X ++ '=' :: Y)).1.mKey = trimChars X ∧
    (tp.parseProperty (X ++ '=' :: Y)).1.mValue = trimChars Y := by
  have hnohash : '#' ∉ X ++ '=' :: Y := by
    simp [List.mem_append, List.mem_cons, hX, hY]
  have h1 : findFirstPos syntaxCommentChar (X ++ '=' :: Y) = none :=
    findFirstPos_eq_none _ _ hnohash
  have h2 : findFirstPos syntaxEqualChar (X ++ '=' :: Y) = some X.length :=
    findFirstPos_append_cons _ X Y hXe
  have h3 : (X ++ '=' :: Y).take X.length = X := List.take_left X _
  have h4 : (X ++ '=' :: Y).drop (X.length + 1) = Y := by
    rw [show X ++ '=' :: Y = (X ++ ['=']) ++ Y from by simp,
      show X.length + 1 = (X ++ ['=']).length from by simp]
    exact List.drop_left _ _
  unfold TraceProperty.parseProperty
  rw [h1]
  dsimp only
  rw [h2]
  dsimp only
  rw [h3, h4]
  exact ⟨rfl, rfl⟩

/-- Splitting facts for a line with a trailing comment: the comment is
cut off first and the remainder splits as in the comment-free case. -/
theorem traceParse_with_comment (X Y cs : Chars) (tp : TraceProperty)
    (hX : '#' ∉ X) (hY : '#' ∉ Y) (hXe : '=' ∉ X) :
    (tp.parseProperty ((X ++ '=' :: Y) ++ '#' :: cs)).1.mKey = trimChars X ∧
    (tp.parseProperty ((X ++ '=' :: Y) ++ '#' :: cs)).1.mValue = trimChars Y := by
  have hnohash : '#' ∉ X ++ '=' :: Y := by
    simp [List.mem_append, List.mem_cons, hX, hY]
  have h1 : findFirstPos syntaxCommentChar ((X ++ '=' :: Y) ++ '#' :: cs) =
      some (X ++ '=' :: Y).length :=
    findFirstPos_append_cons _ _ cs hnohash
  have htake : ((X ++ '=' :: Y) ++ '#' :: cs).take (X ++ '=' :: Y).length = X ++ '=' :: Y :=
    List.take_left _ _
  have h2 : findFirstPos syntaxEqualChar (X ++ '=' :: Y) = some X.length :=
    findFirstPos_append_cons _ X Y hXe
  have hlt : X.length < (X ++ '=' :: Y).length := by
    simp
  have h3 : (X ++ '=' :: Y).take X.length = X := List.take_left X _
  have h4 : (X ++ '=' :: Y).drop (X.length + 1) = Y := by
    rw [show X ++ '=' :: Y = (X ++ ['=']) ++ Y from by simp,
      show X.length + 1 = (X ++ ['=']).length from by simp]
    exact List.drop_left _ _
  have h5 : Y.take ((X ++ '=' :: Y).length - X.length) = Y := by
    apply List.take_of_length_le
    simp
  unfold TraceProperty.parseProperty
  rw [h1]
  dsimp only
  rw [htake, h2]
  dsimp only
  rw [if_pos (decide_eq_true hlt), h3, h4, h5]
  exact ⟨rfl, rfl⟩

/-- The persistence reader on a comment-free line: key and value are the
trimmed halves around the equality sign. -/
theorem propertyParse_no_comment (X Y : Chars) (p0 : Property)
    (hX : '#' ∉ X) (hY : '#' ∉ Y) (hXe : '=' ∉ X) (hkey : trimChars X ≠ []) :
    (p0.parseProperty (X ++ '=' :: Y)).1.mKey.keyPath = trimChars X ∧
    (p0.parseProperty (X ++ '=' :: Y)).1.mValue.valueText = trimChars Y := by
  have hnohash : '#' ∉ X ++ '=' :: Y := by
    simp [List.mem_append, List.mem_cons, hX, hY]
  have hne : (X ++ '=' :: Y).isEmpty = false := by
    cases X <;> rfl
  have h0 : findFirstPos syntaxCommentChar (X ++ '=' :: Y) = none :=
    findFirstPos_eq_none _ _ hnohash
  have h2 : findFirstPos syntaxEqualChar (X ++ '=' :: Y) = some X.length :=
    findFirstPos_append_cons _ X Y hXe
  have h3 : (X ++ '=' :: Y).take X.length = X := List.take_left X _
  have h4 : (X ++ '=' :: Y).drop (X.length + 1) = Y := by
    rw [show X ++ '=' :: Y = (X ++ ['=']) ++ Y from by simp,
      show X.length + 1 = (X ++ ['=']).length from by simp]
    exact List.drop_left _ _
  have hval : (PropertyKey.parseKey X).isValid = true := by
    unfold PropertyKey.isValid PropertyKey.parseKey
    simpa using hkey
  unfold Property.parseProperty
  rw [if_pos hne]
  dsimp only
  rw [h0]
  dsimp only
  rw [if_pos hne]
  unfold splitAtFirst
  rw [h2]
  dsimp only
  rw [h3, h4]
  rw [if_neg (by rw [hval]; simp)]
  exact ⟨rfl, rfl⟩

/-- The persistence reader on a line with a trailing comment: the
comment is cut off and stored, and the remainder splits as without it. -/
theorem propertyParse_with_comment (X Y cs : Chars) (p0 : Property)
    (hX : '#' ∉ X) (hY : '#' ∉ Y) (hXe : '=' ∉ X) (hkey : trimChars X ≠ []) :
    (p0.parseProperty ((X ++ '=' :: Y) ++ '#' :: cs)).1.mKey.keyPath = trimChars X ∧
    (p0.parseProperty ((X ++ '=' :: Y) ++ '#' :: cs)).1.mValue.valueText = trimChars Y := by
  have hnohash : '#' ∉ X ++ '=' :: Y := by
    simp [List.mem_append, List.mem_cons, hX, hY]
  have hne : ((X ++ '=' :: Y) ++ '#' :: cs).isEmpty = false := by
    cases X <;> rfl
  have h1 : findFirstPos syntaxCommentChar ((X ++ '=' :: Y) ++ '#' :: cs) =
      some (X ++ '=' :: Y).length :=
    findFirstPos_append_cons _ _ cs hnohash
  have htake : ((X ++ '=' :: Y) ++ '#' :: cs).take (X ++ '=' :: Y).length = X ++ '=' :: Y :=
    List.take_left _ _
  have hne2 : (X ++ '=' :: Y).isEmpty = false := by
    cases X <;> rfl
  have h2 : findFirstPos syntaxEqualChar (X ++ '=' :: Y) = some X.length :=
    findFirstPos_append_cons _ X Y hXe
  have h3 : (X ++ '=' :: Y).take X.length = X := List.take_left X _
  have h4 : (X ++ '=' :: Y).drop (X.length + 1) = Y := by
    rw [show X ++ '=' :: Y = (X ++ ['=']) ++ Y from by simp,
      show X.length + 1 = (X ++ ['=']).length from by simp]
    exact List.drop_left _ _
  have hval : (PropertyKey.parseKey X).isValid = true := by
    unfold PropertyKey.isValid PropertyKey.parseKey
    simpa using hkey
  unfold Property.parseProperty
  rw [if_pos hne]
  dsimp only
  rw [h1]
  dsimp only
  rw [htake]
  rw [if_pos hne2]
  unfold splitAtFirst
  rw [h2]
  dsimp only
  rw [h3, h4]
  rw [if_neg (by rw [hval]; simp)]
  exact ⟨rfl, rfl⟩

/-- C9: a configuration line of the form blanks, key, blanks, equality
sign, blanks, value, blanks, with an optional trailing comment, parses to
the key and value tokens with the surrounding whitespace stripped — both
in the tracing reader (TraceProperty parseProperty) and the persistence
reader (Property parseProperty). -/
theorem configLine_parse_strips_whitespace (a b c d : Nat) (key value : Chars)
    (comment : Option Chars) (tp : TraceProperty) (p0 : Property)
    (hk : key ≠ []) (hks : ' ' ∉ key) (hke : '=' ∉ key) (hkh : '#' ∉ key)
    (hv : value ≠ []) (hvs : ' ' ∉ value) (hvh : '#' ∉ value) :
    (tp.parseProperty (configLineOf a b c d key value comment)).1.mKey = key ∧
    (tp.parseProperty (configLineOf a b c d key value comment)).1.mValue = value ∧
    (p0.parseProperty (configLineOf a b c d key value comment)).1.mKey.keyPath = key ∧
    (p0.parseProperty (configLineOf a b c d key value comment)).1.mValue.valueText = value := by
  have hXh : '#' ∉ List.replicate a ' ' ++ key ++ List.replicate b ' ' := by
    simp [List.mem_append, List.mem_replicate, hkh]
  have hYh : '#' ∉ List.replicate c ' ' ++ value ++ List.replicate d ' ' := by
    simp [List.mem_append, List.mem_replicate, hvh]
  have hXe : '=' ∉ List.replicate a ' ' ++ key ++ List.replicate b ' ' := by
    simp [List.mem_append, List.mem_replicate, hke]
  have htrimK : trimChars (List.replicate a ' ' ++ key ++ List.replicate b ' ') = key :=
    trimChars_spaces a b key hk hks
  have htrimV : trimChars (List.replicate c ' ' ++ value ++ List.replicate d ' ') = value :=
    trimChars_spaces c d value hv hvs
  have hkeyne : trimChars (List.replicate a ' ' ++ key ++ List.replicate b ' ') ≠ [] := by
    rw [htrimK]
    exact hk
  cases comment with
  | none =>
    have hline : configLineOf a b c d key value none =
        (List.replicate a ' ' ++ key ++ List.replicate b ' ') ++ '=' ::
          (List.replicate c ' ' ++ value ++ List.replicate d ' ') := by
      simp [configLineOf, coreOf, syntaxEqualChar, List.append_assoc]
    rw [hline]
    rcases traceParse_no_comment _ _ tp hXh hYh hXe with ⟨ht1, ht2⟩
    rcases propertyParse_no_comment _ _ p0 hXh hYh hXe hkeyne with ⟨hp1, hp2⟩
    rw [ht1, ht2, hp1, hp2, htrimK, htrimV]
    exact ⟨rfl, rfl, rfl, rfl⟩
  | some cs =>
    have hline : configLineOf a b c d key value (some cs) =
        ((List.replicate a ' ' ++ key ++ List.replicate b ' ') ++ '=' ::
          (List.replicate c ' ' ++ value ++ List.replicate d ' ')) ++ '#' :: cs := by
      simp [configLineOf, coreOf, syntaxEqualChar, syntaxCommentChar, List.append_assoc]
    rw [hline]
    rcases traceParse_with_comment _ _ cs tp hXh hYh hXe with ⟨ht1, ht2⟩
    rcases propertyParse_with_comment _ _ cs p0 hXh hYh hXe hkeyne with ⟨hp1, hp2⟩
    rw [ht1, ht2, hp1, hp2, htrimK, htrimV]
    exact ⟨rfl, rfl, rfl, rfl⟩

/-- Witness for C9: a concrete line with blanks around the tokens and a
trailing comment parses to the stripped key and value in both readers. -/
theorem configLine_parse_strips_whitespace_witness :
    (TraceProperty.emptyProperty.parseProperty
        (configLineOf 1 1 1 0 (['l', 'o', 'g']) (['o', 'n']) (some [' ', 'n']))).1.mKey
      = ['l', 'o', 'g'] ∧
    (TraceProperty.emptyProperty.parseProperty
        (configLineOf 1 1 1 0 (['l', 'o', 'g']) (['o', 'n']) (some [' ', 'n']))).1.mValue
      = ['o', 'n'] ∧
    (Property.emptyProperty.parseProperty
        (configLineOf 1 1 1 0 (['l', 'o', 'g']) (['o', 'n']) (some [' ', 'n']))).1.mKey.keyPath
      = ['l', 'o', 'g'] ∧
    (Property.emptyProperty.parseProperty
        (configLineOf 1 1 1 0 (['l', 'o', 'g']) (['o', 'n']) (some [' ', 'n']))).1.mValue.valueText
      = ['o', 'n'] :=
  configLine_parse_strips_whitespace 1 1 1 0 (['l', 'o', 'g']) (['o', 'n']) (some [' ', 'n'])
    TraceProperty.emptyProperty Property.emptyProperty
    (by decide) (by decide) (by decide) (by decide) (by decide) (by decide) (by decide)

end Areg
